import Mathlib

/-!
# Verification of the ZPLWeb print-agent job pipeline

A shallow embedding of the job-intake and delivery pipeline of the ZPLWeb
print agent (`ZPLWeb/main.py`, `ZPLWeb/utils.py`).  The stateful methods of
`MainWindow` become pure state-transition functions over `AgentState`; every
observable side effect (log line, status-bar text, Print Sink invocation,
acknowledgment emission, transport operation) is recorded in an explicit
`Effect` trace.  Python truthiness of optional integers (`if job_id:` is
false for both `None` and `0`) and of float timestamps (`if last and ...`)
is modelled explicitly.  The SHA-256 digest used by `_make_fingerprint` is
abstracted as an arbitrary function `H : String → String` applied to the
exact concatenation the source hashes (the dispatcher only ever compares
digests for equality, and a fixed hash maps equal inputs to equal outputs).
The outcome of the blocking printer call and of the SQLite insert are
supplied as boolean parameters (`printOk`, `storeOk`), standing for the
success or failure of those external calls.
-/

namespace ZPLWeb

/-- One observable side effect of the pipeline: a log line
(`self.log_sig.emit`), a status-bar message (`self.status_sig.emit`), an
invocation of the Print Sink (`_print_zpl` reaching the driver), an
acknowledgment trigger (`self.ack_sig.emit`), an actual server emission
(`self.sio.emit("print_label_ack", ...)`), a job-list notification
(`self.add_print_sig.emit`), a missing-jobs request trigger, a transport
teardown (`self.sio.disconnect()`), or a transport connection attempt
(`self.sio.connect(...)`). -/
inductive Effect where
  | log (msg : String)
  | statusMsg (msg : String)
  | printSink (printer : String) (zpl : Option String)
  | ackTrigger (job_id : Int)
  | serverAck (job_id : Int)
  | addPrintList (invoice : Option String)
  | requestMissing
  | disconnectTransport
  | connectAttempt
  deriving DecidableEq

/-- One row of the `prints` table (`CREATE TABLE prints` in `_init_db`):
`job_id` is nullable, `acked` defaults to 0 (`false`).  The autoincrement
`id` is the position in the list (later rows have larger ids); `tstamp` is
irrelevant to every claim and omitted. -/
structure PrintRecord where
  job_id : Option Int
  invoice : Option String
  pcs : Option Int
  zpl : Option String
  acked : Bool
  deriving DecidableEq

/-- The payload of a `print_label` event as read by `_handle_print_job`:
`data.get("job_id")`, `data.get("invoice")`, `data.get("pcs")`,
`data.get("data")`, each possibly absent. -/
structure JobData where
  job_id : Option Int
  invoice : Option String
  pcs : Option Int
  data : Option String
  deriving DecidableEq

/-- The mutable state of `MainWindow` relevant to the pipeline:
credentials (`self.api_key`, `self.server_url`), connection flags
(`self.sio.connected`, `self._connecting`), the in-flight Reservation set
(`self._inflight`), the seen-jobs dedupe set (`self._seen_jobs`), the
fingerprint cache (`self._recent_fingerprints`, digest ↦ last-seen
timestamp), and the Durable Job Log (`prints` table rows, in id order). -/
structure AgentState where
  api_key : String
  server_url : String
  connected : Bool
  connecting : Bool
  inflight : List Int
  seenJobs : List Int
  recentFingerprints : List (String × Nat)
  db : List PrintRecord
  deriving DecidableEq

/-- Python `str(pcs or "")` for an optional integer: `None` and `0` are
falsy and give the empty string, any other integer its decimal rendering. -/
def pyStrOrEmpty : Option Int → String
  | none => ""
  | some n => if n = 0 then "" else toString n

/-- Python f-string rendering of an optional string (`None` prints as
`"None"`). -/
def pyShowOptStr : Option String → String
  | none => "None"
  | some s => s

/-- The exact byte string `_make_fingerprint` feeds to SHA-256:
`(invoice or "") + str(pcs or "") + (zpl or "")`, concatenated with no
separators (`h.update` calls in `ZPLWeb/utils.py`). -/
def fingerprint_input (invoice : Option String) (pcs : Option Int)
    (zpl : Option String) : String :=
  invoice.getD "" ++ pyStrOrEmpty pcs ++ zpl.getD ""

/-- `_make_fingerprint(invoice, pcs, zpl)` with the SHA-256 digest
abstracted as `H`: the digest of the separator-free concatenation. -/
def make_fingerprint (H : String → String) (invoice : Option String)
    (pcs : Option Int) (zpl : Option String) : String :=
  H (fingerprint_input invoice pcs zpl)

/-- `self._fingerprint_ttl = 60` seconds. -/
def fingerprint_ttl : Nat := 60

/-- The stale-entry cleanup loop in `_handle_print_job`: delete every entry
with `now - ts > self._fingerprint_ttl` (keep those with `now - ts ≤ 60`). -/
def purgeFingerprints (now : Nat) (cache : List (String × Nat)) :
    List (String × Nat) :=
  cache.filter (fun p => now - p.2 ≤ fingerprint_ttl)

/-- `self._recent_fingerprints.get(fp)` on the association-list model. -/
def lookupFingerprint : List (String × Nat) → String → Option Nat
  | [], _ => none
  | p :: rest, fp => if p.1 = fp then some p.2 else lookupFingerprint rest fp

/-- `self._recent_fingerprints[fp] = now`: replace or add the binding. -/
def setFingerprint (cache : List (String × Nat)) (fp : String) (now : Nat) :
    List (String × Nat) :=
  (fp, now) :: cache.filter (fun p => p.1 ≠ fp)

/-- Python `set.add` on the list model of a set of job ids. -/
def addId (n : Int) (s : List Int) : List Int :=
  if n ∈ s then s else n :: s

/-- Python `set.discard` on the list model of a set of job ids. -/
def removeId (n : Int) (s : List Int) : List Int :=
  s.filter (fun m => m ≠ n)

/-- `MainWindow._is_job_acked`: `SELECT acked FROM prints WHERE job_id=?
ORDER BY id DESC LIMIT 1` — the `acked` flag of the latest row with this
`job_id`, `false` when no such row exists. -/
def is_job_acked (db : List PrintRecord) (job_id : Int) : Bool :=
  match (db.filter (fun r => r.job_id = some job_id)).getLast? with
  | some r => r.acked
  | none => false

/-- `MainWindow._store_print`: insert one row with `acked = 0`, then notify
the job-list view via `add_print_sig`. -/
def store_print (job_id : Option Int) (invoice : Option String)
    (pcs : Option Int) (zpl : Option String) (st : AgentState) :
    AgentState × List Effect :=
  ({ st with db := st.db ++ [⟨job_id, invoice, pcs, zpl, false⟩] },
   [Effect.addPrintList invoice])

/-- The completion callback `cb(ok, msg)` defined inside
`_handle_print_job`.  On success: log `msg`; if `job_id` is truthy, discard
it from the Reservation set and add it to the seen-jobs set; run
`_store_print`; if `job_id` is truthy, trigger the acknowledgment.  On
failure: log `msg` and release the reservation.  The third component
reports whether an exception escaped the callback (only possible when the
SQLite insert in `_store_print` raises, i.e. `storeOk = false`). -/
def job_cb (job_id : Option Int) (invoice : Option String) (pcs : Option Int)
    (zpl : Option String) (ok : Bool) (msg : String) (storeOk : Bool)
    (st : AgentState) : AgentState × List Effect × Bool :=
  if ok then
    let st1 :=
      match job_id with
      | some n =>
          if n = 0 then st
          else { st with inflight := removeId n st.inflight,
                         seenJobs := addId n st.seenJobs }
      | none => st
    if storeOk then
      let r := store_print job_id invoice pcs zpl st1
      let ackEff :=
        match job_id with
        | some n => if n = 0 then [] else [Effect.ackTrigger n]
        | none => []
      (r.1, (Effect.log msg :: r.2) ++ ackEff, false)
    else
      (st1, [Effect.log msg], true)
  else
    let st1 :=
      match job_id with
      | some n => if n = 0 then st
                  else { st with inflight := removeId n st.inflight }
      | none => st
    (st1, [Effect.log msg], false)

/-- Stand-in for the exception text `f"Print error: {exc}"` produced when
the driver call raises; the concrete suffix is outside the model. -/
def printFailMsg : String := "Print error: driver failure"

/-- Stand-in for the exception text produced when `cb(True, ...)` raises
out of `_store_print` and `_print_zpl` re-enters `cb(False, ...)`. -/
def storeFailMsg : String := "Print error: persistence failure"

/-- `_print_zpl(printer, zpl, cb)` on the Windows path composed with the
dispatcher callback: the driver calls sit in a `try` block together with
`cb(True, "Printed via ...")`, so when the print succeeds but the callback
raises (persistence failure), the `except` branch calls
`cb(False, "Print error: ...")` a second time; when the driver itself
fails, `cb(False, ...)` runs once.  The Print Sink invocation is recorded
exactly once either way. -/
def print_zpl (printer : String) (job_id : Option Int)
    (invoice : Option String) (pcs : Option Int) (zpl : Option String)
    (printOk storeOk : Bool) (st : AgentState) : AgentState × List Effect :=
  if printOk then
    let r1 := job_cb job_id invoice pcs zpl true ("Printed via " ++ printer)
      storeOk st
    if r1.2.2 then
      let r2 := job_cb job_id invoice pcs zpl false storeFailMsg true r1.1
      (r2.1, Effect.printSink printer zpl :: (r1.2.1 ++ r2.2.1))
    else
      (r1.1, Effect.printSink printer zpl :: r1.2.1)
  else
    let r1 := job_cb job_id invoice pcs zpl false printFailMsg true st
    (r1.1, Effect.printSink printer zpl :: r1.2.1)

/-- The identifier-less branch of `_handle_print_job`: compute the
fingerprint, purge stale cache entries, and suppress the job when a cache
entry exists that is Python-truthy (`last` is falsy at timestamp `0`) and
younger than the window; otherwise record `(fp, now)` and print. -/
def fingerprint_path (H : String → String) (printer : String) (now : Nat)
    (printOk storeOk : Bool) (st : AgentState) (job_id : Option Int)
    (invoice : Option String) (pcs : Option Int) (zpl : Option String) :
    AgentState × List Effect :=
  let fp := make_fingerprint H invoice pcs zpl
  let purged := purgeFingerprints now st.recentFingerprints
  match lookupFingerprint purged fp with
  | some last =>
      if last ≠ 0 ∧ now - last < fingerprint_ttl then
        ({ st with recentFingerprints := purged },
         [Effect.log ("Ignoring duplicate unlabeled job for invoice " ++
           pyShowOptStr invoice)])
      else
        print_zpl printer job_id invoice pcs zpl printOk storeOk
          { st with recentFingerprints := setFingerprint purged fp now }
  | none =>
      print_zpl printer job_id invoice pcs zpl printOk storeOk
        { st with recentFingerprints := setFingerprint purged fp now }

/-- `MainWindow._handle_print_job(data)`.  A truthy `job_id` goes through
the reservation/seen-jobs dedupe (in-flight check first, then the durable
log via the seen-jobs set and `_is_job_acked`); a falsy `job_id` (`None`
or `0`) goes through the fingerprint path.  `now` is the wall-clock
timestamp; `printOk` and `storeOk` are the outcomes of the driver call and
of the SQLite insert. -/
def handle_print_job (H : String → String) (printer : String) (now : Nat)
    (printOk storeOk : Bool) (st : AgentState) (d : JobData) :
    AgentState × List Effect :=
  match d.job_id with
  | some n =>
      if n = 0 then
        fingerprint_path H printer now printOk storeOk st d.job_id d.invoice
          d.pcs d.data
      else if n ∈ st.inflight then
        (st, [Effect.log ("Job " ++ toString n ++
          " ignored (already in-flight)")])
      else if n ∈ st.seenJobs then
        if is_job_acked st.db n then
          (st, [Effect.log ("Job " ++ toString n ++
            " ignored (already printed)")])
        else
          (st, [Effect.log ("Job " ++ toString n ++
            " ignored (already printed, ack pending)"),
            Effect.ackTrigger n])
      else
        print_zpl printer d.job_id d.invoice d.pcs d.data printOk storeOk
          { st with inflight := addId n st.inflight }
  | none =>
      fingerprint_path H printer now printOk storeOk st none d.invoice d.pcs
        d.data

/-- `MainWindow._emit_ack(job_id)`: a falsy `job_id` returns immediately;
disconnected logs "Ack pending"; connected emits `print_label_ack` and,
only when the emit (and the subsequent `UPDATE prints SET acked=1`) does
not raise (`emitOk`), flips `acked` on every row with this `job_id`; when
it raises, only the error is logged and the state is unchanged. -/
def emit_ack (st : AgentState) (job_id : Int) (emitOk : Bool) :
    AgentState × List Effect :=
  if job_id = 0 then (st, [])
  else if st.connected then
    if emitOk then
      ({ st with db := st.db.map (fun r =>
          if r.job_id = some job_id then { r with acked := true } else r) },
       [Effect.serverAck job_id])
    else
      (st, [Effect.log ("Ack error for job " ++ toString job_id)])
  else
    (st, [Effect.log ("Ack pending for job " ++ toString job_id)])

/-- The job ids selected by `_flush_pending_acks`: `SELECT job_id FROM
prints WHERE job_id IS NOT NULL AND acked=0`, in row order. -/
def flush_pending_acks_jobs (db : List PrintRecord) : List Int :=
  db.filterMap (fun r =>
    match r.job_id with
    | some j => if r.acked then none else some j
    | none => none)

/-- `MainWindow._flush_pending_acks`: one `ack_sig.emit(jid)` per selected
row. -/
def flush_pending_acks (db : List PrintRecord) : List Effect :=
  (flush_pending_acks_jobs db).map Effect.ackTrigger

/-- The `connect` handler registered in `_register_handlers`: log
"Connected", flush pending acknowledgments, clear `_connecting`, and
schedule `_request_missing`. -/
def on_connect (st : AgentState) : AgentState × List Effect :=
  ({ st with connected := true, connecting := false },
   (Effect.log "Connected" :: flush_pending_acks st.db) ++
     [Effect.requestMissing])

/-- `MainWindow._connect_socket`: bail out with a status message when the
credentials are missing; tear down an existing connection first
(`self.sio.disconnect()`); return while a connection attempt is in flight
(`self._connecting`); otherwise set `_connecting` and attempt the
transport, and on failure (the `except` branch — every exception is
caught, so the method never raises) log the cause, show "Disconnected" and
clear `_connecting`. -/
def connect_socket (st : AgentState) (attemptOk : Bool) :
    AgentState × List Effect :=
  if st.api_key = "" ∨ st.server_url = "" then
    (st, [Effect.statusMsg "Missing API key or URL"])
  else
    let st1 := if st.connected then { st with connected := false } else st
    let e1 : List Effect :=
      if st.connected then [Effect.disconnectTransport] else []
    if st1.connecting then (st1, e1)
    else
      let st2 := { st1 with connecting := true }
      if attemptOk then
        ({ st2 with connected := true }, e1 ++ [Effect.connectAttempt])
      else
        ({ st2 with connecting := false },
         e1 ++ [Effect.connectAttempt, Effect.log "Connection error",
           Effect.statusMsg "Disconnected"])

/-- Recognizer for Print Sink invocations in an effect trace. -/
def Effect.isPrintSink : Effect → Bool
  | .printSink _ _ => true
  | _ => false

/-- Recognizer for acknowledgment triggers (`ack_sig.emit`). -/
def Effect.isAckTrigger : Effect → Bool
  | .ackTrigger _ => true
  | _ => false

/-- Recognizer for server acknowledgment emissions
(`sio.emit("print_label_ack", ...)`). -/
def Effect.isServerAck : Effect → Bool
  | .serverAck _ => true
  | _ => false

/-! ## Helper lemmas -/

lemma countP_ackTrigger_map (xs : List Int) :
    ((xs.map Effect.ackTrigger).countP Effect.isAckTrigger) = xs.length := by
  induction xs with
  | nil => simp
  | cons x xs ih => simp [List.countP_cons, Effect.isAckTrigger, ih]

lemma countP_printSink_map_ack (xs : List Int) :
    ((xs.map Effect.ackTrigger).countP Effect.isPrintSink) = 0 := by
  induction xs with
  | nil => simp
  | cons x xs ih => simp [List.countP_cons, Effect.isPrintSink, ih]

lemma flush_pending_acks_jobs_length (db : List PrintRecord) :
    (flush_pending_acks_jobs db).length
      = (db.filter (fun r => r.job_id.isSome && !r.acked)).length := by
  induction db with
  | nil => simp [flush_pending_acks_jobs]
  | cons r db ih =>
      rcases r with ⟨jid, inv, pcs, zpl, acked⟩
      rcases jid with _ | j <;> cases acked <;>
        simp [flush_pending_acks_jobs, List.filterMap_cons, List.filter_cons] <;>
        simpa [flush_pending_acks_jobs] using ih

lemma print_zpl_zero_id (printer : String) (invoice : Option String)
    (pcs : Option Int) (zpl : Option String) (printOk storeOk : Bool)
    (st : AgentState) :
    (print_zpl printer (some 0) invoice pcs zpl printOk storeOk st).1.seenJobs
        = st.seenJobs
    ∧ (print_zpl printer (some 0) invoice pcs zpl printOk storeOk
        st).2.countP Effect.isAckTrigger = 0
    ∧ (print_zpl printer (some 0) invoice pcs zpl printOk storeOk
        st).2.countP Effect.isServerAck = 0 := by
  cases printOk <;> cases storeOk <;>
    simp [print_zpl, job_cb, store_print, List.countP_cons,
      List.countP_append, Effect.isAckTrigger, Effect.isServerAck]

lemma fingerprint_path_zero_id (H : String → String) (printer : String)
    (now : Nat) (printOk storeOk : Bool) (st : AgentState)
    (invoice : Option String) (pcs : Option Int) (zpl : Option String) :
    (fingerprint_path H printer now printOk storeOk st (some 0) invoice pcs
        zpl).1.seenJobs = st.seenJobs
    ∧ (fingerprint_path H printer now printOk storeOk st (some 0) invoice
        pcs zpl).2.countP Effect.isAckTrigger = 0
    ∧ (fingerprint_path H printer now printOk storeOk st (some 0) invoice
        pcs zpl).2.countP Effect.isServerAck = 0 := by
  rcases h : lookupFingerprint (purgeFingerprints now st.recentFingerprints)
      (make_fingerprint H invoice pcs zpl) with _ | last
  · simp only [fingerprint_path, h]
    exact print_zpl_zero_id ..
  · by_cases hc : last ≠ 0 ∧ now - last < fingerprint_ttl
    · simp [fingerprint_path, h, hc, List.countP_cons, Effect.isAckTrigger,
        Effect.isServerAck]
    · simp only [fingerprint_path, h, if_neg hc]
      exact print_zpl_zero_id ..

/-! ## Claim theorems -/

/-- C2: when the Print Sink reports success for a job (the `ok = true`
branch of the dispatcher callback, with the insert succeeding), the
dispatcher removes the `job_id` from the Reservation set when it is
present (truthy), appends exactly one `PrintRecord` with `acked = 0`, and
triggers an acknowledgment if and only if the `job_id` is present. -/
theorem print_success_bookkeeping (st : AgentState) (job_id : Option Int)
    (invoice : Option String) (pcs : Option Int) (zpl : Option String)
    (msg : String) :
    (job_cb job_id invoice pcs zpl true msg true st).1.db
        = st.db ++ [⟨job_id, invoice, pcs, zpl, false⟩]
    ∧ (job_cb job_id invoice pcs zpl true msg true st).1.inflight
        = (match job_id with
           | some n => if n = 0 then st.inflight else removeId n st.inflight
           | none => st.inflight)
    ∧ (job_cb job_id invoice pcs zpl true msg true st).2.1.countP
          Effect.isAckTrigger
        = (match job_id with
           | some n => if n = 0 then 0 else 1
           | none => 0) := by
  rcases job_id with _ | n
  · simp [job_cb, store_print, List.countP_cons, Effect.isAckTrigger]
  · by_cases h : n = 0 <;>
      simp [job_cb, store_print, h, List.countP_cons, List.countP_append,
        Effect.isAckTrigger]

/-- C3: the `connect` handler flushes the pending acknowledgments: its
effect trace contains exactly one acknowledgment trigger per Durable Job
Log row with non-null `job_id` and `acked = 0`, and no Print Sink
invocation at all. -/
theorem connect_flushes_pending_acks (st : AgentState) :
    (on_connect st).2.countP Effect.isAckTrigger
        = (st.db.filter (fun r => r.job_id.isSome && !r.acked)).length
    ∧ (on_connect st).2.countP Effect.isPrintSink = 0 := by
  constructor
  · simp [on_connect, flush_pending_acks, List.countP_cons,
      List.countP_append, Effect.isAckTrigger, countP_ackTrigger_map,
      flush_pending_acks_jobs_length, -List.countP_map]
  · simp [on_connect, flush_pending_acks, List.countP_cons,
      List.countP_append, Effect.isPrintSink, countP_printSink_map_ack,
      -List.countP_map]

/-- C10: a job whose `job_id` equals `0` is treated as identifier-less:
`_handle_print_job` routes it through the fingerprint-deduplication path
(literally the same code path as an absent `job_id`), its processing never
triggers or emits an acknowledgment, it is never added to the seen-jobs
dedupe set, and `_emit_ack(0)` returns immediately with no effect at all. -/
theorem zero_job_id_unlabeled (H : String → String) (printer : String)
    (now : Nat) (printOk storeOk : Bool) (st : AgentState)
    (invoice : Option String) (pcs : Option Int) (zpl : Option String)
    (emitOk : Bool) :
    handle_print_job H printer now printOk storeOk st
        ⟨some 0, invoice, pcs, zpl⟩
      = fingerprint_path H printer now printOk storeOk st (some 0) invoice
          pcs zpl
    ∧ (handle_print_job H printer now printOk storeOk st
        ⟨some 0, invoice, pcs, zpl⟩).1.seenJobs = st.seenJobs
    ∧ (handle_print_job H printer now printOk storeOk st
        ⟨some 0, invoice, pcs, zpl⟩).2.countP Effect.isAckTrigger = 0
    ∧ (handle_print_job H printer now printOk storeOk st
        ⟨some 0, invoice, pcs, zpl⟩).2.countP Effect.isServerAck = 0
    ∧ emit_ack st 0 emitOk = (st, []) := by
  have h := fingerprint_path_zero_id H printer now printOk storeOk st invoice
    pcs zpl
  exact ⟨rfl, h.1, h.2.1, h.2.2, by simp [emit_ack]⟩

/-- C1: for an inbound job whose `job_id` is present (truthy) and either
in the in-flight Reservation set or already recorded (seen-jobs set fed
from the Durable Job Log), `_handle_print_job` returns with the state
unchanged and without invoking the Print Sink; in the
recorded-but-not-yet-acknowledged case it additionally re-triggers the
acknowledgment for that `job_id` before returning. -/
theorem handle_job_duplicate_no_print (H : String → String)
    (printer : String) (now : Nat) (printOk storeOk : Bool)
    (st : AgentState) (d : JobData) (n : Int) (hid : d.job_id = some n)
    (hn : n ≠ 0) (hmem : n ∈ st.inflight ∨ n ∈ st.seenJobs) :
    (handle_print_job H printer now printOk storeOk st d).1 = st
    ∧ (handle_print_job H printer now printOk storeOk st d).2.countP
        Effect.isPrintSink = 0
    ∧ (n ∉ st.inflight → is_job_acked st.db n = false →
        Effect.ackTrigger n ∈
          (handle_print_job H printer now printOk storeOk st d).2) := by
  by_cases hin : n ∈ st.inflight
  · simp [handle_print_job, hid, hn, hin, Effect.isPrintSink,
      List.countP_cons]
  · have hseen : n ∈ st.seenJobs := hmem.resolve_left hin
    by_cases hack : is_job_acked st.db n
    · simp [handle_print_job, hid, hn, hin, hseen, hack, Effect.isPrintSink,
        List.countP_cons]
    · simp [handle_print_job, hid, hn, hin, hseen, hack, Effect.isPrintSink,
        List.countP_cons]

/-- Witness for C1 at a concrete input: job 7 is recorded (seen) with an
unacknowledged log row, so resubmitting it leaves the state unchanged,
never reaches the Print Sink, and re-triggers `ack(7)`. -/
theorem handle_job_duplicate_no_print_witness :
    ((⟨some 7, some "INV-1", some 2, some "^XA^XZ"⟩ : JobData).job_id
        = some 7)
    ∧ ((7 : Int) ≠ 0)
    ∧ ((7 : Int) ∈ ([] : List Int) ∨ (7 : Int) ∈ [(7 : Int)])
    ∧ ((handle_print_job id "P" 0 true true
          ⟨"k", "u", true, false, [], [7],
            [], [⟨some 7, some "INV-1", some 2, some "^XA^XZ", false⟩]⟩
          ⟨some 7, some "INV-1", some 2, some "^XA^XZ"⟩).1
        = ⟨"k", "u", true, false, [], [7],
            [], [⟨some 7, some "INV-1", some 2, some "^XA^XZ", false⟩]⟩
      ∧ (handle_print_job id "P" 0 true true
          ⟨"k", "u", true, false, [], [7],
            [], [⟨some 7, some "INV-1", some 2, some "^XA^XZ", false⟩]⟩
          ⟨some 7, some "INV-1", some 2, some "^XA^XZ"⟩).2.countP
            Effect.isPrintSink = 0
      ∧ ((7 : Int) ∉ ([] : List Int) →
          is_job_acked
            [⟨some 7, some "INV-1", some 2, some "^XA^XZ", false⟩] 7
              = false →
          Effect.ackTrigger 7 ∈
            (handle_print_job id "P" 0 true true
              ⟨"k", "u", true, false, [], [7],
                [], [⟨some 7, some "INV-1", some 2, some "^XA^XZ", false⟩]⟩
              ⟨some 7, some "INV-1", some 2, some "^XA^XZ"⟩).2)) :=
  ⟨rfl, by decide, Or.inr (by decide),
    handle_job_duplicate_no_print id "P" 0 true true
      ⟨"k", "u", true, false, [], [7],
        [], [⟨some 7, some "INV-1", some 2, some "^XA^XZ", false⟩]⟩
      ⟨some 7, some "INV-1", some 2, some "^XA^XZ"⟩ 7 rfl (by decide)
      (Or.inr (by decide))⟩

/-- C4: two identifier-less jobs with identical `(invoice, copies,
payload)` submitted 1 second apart are deduplicated (the second causes no
Print Sink invocation); submitted 61 seconds apart both print; and in the
61-second run the stale fingerprint entry is purged, leaving only the
fresh one in the cache.  `0 < t0` reflects that a real wall-clock
timestamp is positive (a timestamp of exactly `0` is falsy in Python). -/
theorem fingerprint_window_dedupe (H : String → String) (printer : String)
    (invoice : Option String) (pcs : Option Int) (zpl : Option String)
    (st0 : AgentState) (t0 : Nat) (hfp : st0.recentFingerprints = [])
    (ht0 : 0 < t0) :
    (handle_print_job H printer t0 true true st0
        ⟨none, invoice, pcs, zpl⟩).2.countP Effect.isPrintSink = 1
    ∧ (handle_print_job H printer (t0 + 1) true true
        (handle_print_job H printer t0 true true st0
          ⟨none, invoice, pcs, zpl⟩).1
        ⟨none, invoice, pcs, zpl⟩).2.countP Effect.isPrintSink = 0
    ∧ (handle_print_job H printer (t0 + 61) true true
        (handle_print_job H printer t0 true true st0
          ⟨none, invoice, pcs, zpl⟩).1
        ⟨none, invoice, pcs, zpl⟩).2.countP Effect.isPrintSink = 1
    ∧ (handle_print_job H printer (t0 + 61) true true
        (handle_print_job H printer t0 true true st0
          ⟨none, invoice, pcs, zpl⟩).1
        ⟨none, invoice, pcs, zpl⟩).1.recentFingerprints
      = [(make_fingerprint H invoice pcs zpl, t0 + 61)] := by
  have hne : t0 ≠ 0 := Nat.pos_iff_ne_zero.mp ht0
  have e1 : t0 + 1 - t0 = 1 := by omega
  have e61 : t0 + 61 - t0 = 61 := by omega
  have f1 : t0 + 1 ≤ 60 + t0 := by omega
  have g1 : t0 + 1 < 60 + t0 := by omega
  have f61 : ¬ t0 + 61 ≤ 60 + t0 := by omega
  have hr1 : handle_print_job H printer t0 true true st0
      ⟨none, invoice, pcs, zpl⟩
      = ({ st0 with
            recentFingerprints := [(make_fingerprint H invoice pcs zpl, t0)],
            db := st0.db ++ [⟨none, invoice, pcs, zpl, false⟩] },
         [Effect.printSink printer zpl,
          Effect.log ("Printed via " ++ printer),
          Effect.addPrintList invoice]) := by
    simp [handle_print_job, fingerprint_path, hfp, purgeFingerprints,
      setFingerprint, lookupFingerprint, print_zpl, job_cb, store_print]
  rw [hr1]
  refine ⟨?_, ?_, ?_, ?_⟩
  · simp [List.countP_cons, Effect.isPrintSink]
  · simp [handle_print_job, fingerprint_path, purgeFingerprints,
      lookupFingerprint, e1, hne, f1, g1, fingerprint_ttl,
      List.filter_cons, List.countP_cons, Effect.isPrintSink]
  · simp [handle_print_job, fingerprint_path, purgeFingerprints,
      lookupFingerprint, setFingerprint, e61, f61, fingerprint_ttl,
      List.filter_cons, print_zpl, job_cb, store_print, List.countP_cons,
      Effect.isPrintSink]
  · simp [handle_print_job, fingerprint_path, purgeFingerprints,
      lookupFingerprint, setFingerprint, e61, f61, fingerprint_ttl,
      List.filter_cons, print_zpl, job_cb, store_print]

/-- Witness for C4 at a concrete input: identical unlabeled jobs at
timestamps 100, 101 and 161 with the digest abstracted as the identity
function. -/
theorem fingerprint_window_dedupe_witness :
    (AgentState.recentFingerprints ⟨"k", "u", false, false, [], [], [], []⟩
        = [])
    ∧ (0 < 100)
    ∧ ((handle_print_job id "P" 100 true true
          ⟨"k", "u", false, false, [], [], [], []⟩
          ⟨none, some "I", some 2, some "Z"⟩).2.countP Effect.isPrintSink
            = 1
      ∧ (handle_print_job id "P" (100 + 1) true true
          (handle_print_job id "P" 100 true true
            ⟨"k", "u", false, false, [], [], [], []⟩
            ⟨none, some "I", some 2, some "Z"⟩).1
          ⟨none, some "I", some 2, some "Z"⟩).2.countP Effect.isPrintSink
            = 0
      ∧ (handle_print_job id "P" (100 + 61) true true
          (handle_print_job id "P" 100 true true
            ⟨"k", "u", false, false, [], [], [], []⟩
            ⟨none, some "I", some 2, some "Z"⟩).1
          ⟨none, some "I", some 2, some "Z"⟩).2.countP Effect.isPrintSink
            = 1
      ∧ (handle_print_job id "P" (100 + 61) true true
          (handle_print_job id "P" 100 true true
            ⟨"k", "u", false, false, [], [], [], []⟩
            ⟨none, some "I", some 2, some "Z"⟩).1
          ⟨none, some "I", some 2, some "Z"⟩).1.recentFingerprints
        = [(make_fingerprint id (some "I") (some 2) (some "Z"), 100 + 61)]) :=
  ⟨rfl, by decide,
    fingerprint_window_dedupe id "P" (some "I") (some 2) (some "Z")
      ⟨"k", "u", false, false, [], [], [], []⟩ 100 rfl (by decide)⟩

/-- C5: `_emit_ack` with a truthy `job_id`: when disconnected it only logs
"Ack pending" and leaves the state (hence every `acked` flag) unchanged;
when connected it flips `acked` on the rows for this `job_id` exactly when
the emit call does not raise, and when the emit raises it only logs the
error and leaves the state unchanged. -/
theorem emit_ack_behaviour (st : AgentState) (job_id : Int) (emitOk : Bool)
    (h : job_id ≠ 0) :
    (st.connected = false →
      emit_ack st job_id emitOk
        = (st, [Effect.log ("Ack pending for job " ++ toString job_id)]))
    ∧ (st.connected = true →
        emit_ack st job_id true
          = ({ st with db := st.db.map (fun r =>
                if r.job_id = some job_id then { r with acked := true }
                else r) },
             [Effect.serverAck job_id]))
    ∧ (st.connected = true →
        emit_ack st job_id false
          = (st, [Effect.log ("Ack error for job " ++ toString job_id)])) := by
  refine ⟨fun hc => ?_, fun hc => ?_, fun hc => ?_⟩ <;>
    simp [emit_ack, h, hc]

/-- Witness for C5 at a concrete input: job 5, connected, one
unacknowledged row, with the emit raising. -/
theorem emit_ack_behaviour_witness :
    ((5 : Int) ≠ 0)
    ∧ (AgentState.connected
        ⟨"k", "u", true, false, [], [5], [],
          [⟨some 5, some "I", some 1, some "Z", false⟩]⟩ = true)
    ∧ (emit_ack
        ⟨"k", "u", true, false, [], [5], [],
          [⟨some 5, some "I", some 1, some "Z", false⟩]⟩ 5 false
      = (⟨"k", "u", true, false, [], [5], [],
          [⟨some 5, some "I", some 1, some "Z", false⟩]⟩,
         [Effect.log ("Ack error for job " ++ toString (5 : Int))])) :=
  ⟨by decide, rfl,
    (emit_ack_behaviour
      ⟨"k", "u", true, false, [], [5], [],
        [⟨some 5, some "I", some 1, some "Z", false⟩]⟩ 5 false
      (by decide)).2.2 rfl⟩

/-- C6: when the Print Sink reports failure for a job with a truthy
`job_id`, the callback only removes that `job_id` from the Reservation set
and logs the error message: the rest of the state (in particular the
Durable Job Log) is untouched and the effect trace is exactly the log
line, so no record is persisted and no acknowledgment is triggered. -/
theorem print_failure_releases_reservation (st : AgentState)
    (job_id : Option Int) (invoice : Option String) (pcs : Option Int)
    (zpl : Option String) (msg : String) (storeOk : Bool) (n : Int)
    (hid : job_id = some n) (hn : n ≠ 0) :
    (job_cb job_id invoice pcs zpl false msg storeOk st).1
        = { st with inflight := removeId n st.inflight }
    ∧ (job_cb job_id invoice pcs zpl false msg storeOk st).2.1
        = [Effect.log msg] := by
  subst hid
  simp [job_cb, hn]

/-- Witness for C6 at a concrete input: job 9 is in flight and the driver
reports failure. -/
theorem print_failure_releases_reservation_witness :
    ((some 9 : Option Int) = some 9)
    ∧ ((9 : Int) ≠ 0)
    ∧ ((job_cb (some 9) (some "I") (some 1) (some "Z") false printFailMsg
          true ⟨"k", "u", true, false, [9], [], [], []⟩).1
        = { (⟨"k", "u", true, false, [9], [], [], []⟩ : AgentState) with
              inflight := removeId 9 [9] }
      ∧ (job_cb (some 9) (some "I") (some 1) (some "Z") false printFailMsg
          true ⟨"k", "u", true, false, [9], [], [], []⟩).2.1
        = [Effect.log printFailMsg]) :=
  ⟨rfl, by decide,
    print_failure_releases_reservation
      ⟨"k", "u", true, false, [9], [], [], []⟩ (some 9) (some "I") (some 1)
      (some "Z") printFailMsg true 9 rfl (by decide)⟩

/-- Counterexample to C7 as stated: with credentials configured, the
client already connected and no attempt in flight, `_connect_socket` is
not a no-op — it tears the existing connection down
(`self.sio.disconnect()`) and attempts a fresh one. -/
theorem connect_when_connected_not_noop :
    connect_socket ⟨"k", "u", true, false, [], [], [], []⟩ true
        ≠ (⟨"k", "u", true, false, [], [], [], []⟩, ([] : List Effect))
    ∧ Effect.disconnectTransport ∈
        (connect_socket ⟨"k", "u", true, false, [], [], [], []⟩ true).2 := by
  decide

/-- C7 (amended): with credentials configured, `_connect_socket` is a
no-op when a connection attempt is already in flight and the client is
not currently connected; when the client is already connected it first
tears the transport down before reconnecting; and on any connection
failure it moves to disconnected (both flags cleared), logging the cause
and showing "Disconnected" — every exception is caught inside the method,
so it never raises to the caller (the model is a total function). -/
theorem connect_socket_behaviour (st : AgentState) (attemptOk : Bool)
    (hk : st.api_key ≠ "") (hu : st.server_url ≠ "") :
    (st.connected = false → st.connecting = true →
        connect_socket st attemptOk = (st, []))
    ∧ (st.connected = true →
        Effect.disconnectTransport ∈ (connect_socket st attemptOk).2)
    ∧ (st.connecting = false →
        (connect_socket st false).1.connected = false
        ∧ (connect_socket st false).1.connecting = false
        ∧ Effect.log "Connection error" ∈ (connect_socket st false).2
        ∧ Effect.statusMsg "Disconnected" ∈ (connect_socket st false).2) := by
  refine ⟨fun hc hg => ?_, fun hc => ?_, fun hg => ?_⟩
  · simp [connect_socket, hk, hu, hc, hg]
  · by_cases hg : st.connecting <;> cases attemptOk <;>
      simp [connect_socket, hk, hu, hc, hg]
  · by_cases hc : st.connected <;>
      simp [connect_socket, hk, hu, hc, hg]

/-- Witness for C7 (amended) at a concrete input: an attempt already in
flight while disconnected makes `_connect_socket` return with no state
change and no effect. -/
theorem connect_socket_behaviour_witness :
    ((("k" : String) ≠ "") ∧ (("u" : String) ≠ ""))
    ∧ connect_socket ⟨"k", "u", false, true, [], [], [], []⟩ true
        = (⟨"k", "u", false, true, [], [], [], []⟩, []) :=
  ⟨⟨by decide, by decide⟩,
    (connect_socket_behaviour ⟨"k", "u", false, true, [], [], [], []⟩ true
      (by decide) (by decide)).1 rfl rfl⟩

/-- C8: when the print succeeds but the SQLite insert in `_store_print`
raises, the pipeline does not crash (the exception is caught by the
`try`/`except` around the driver call, which re-enters the callback on its
failure path): the Print Sink ran exactly once, the Durable Job Log is
unchanged (the job stays unpersisted), no acknowledgment is triggered, the
error is logged, and the reservation is released. -/
theorem store_failure_no_crash (H : String → String) (printer : String)
    (now : Nat) (st : AgentState) (d : JobData) (n : Int)
    (hid : d.job_id = some n) (hn : n ≠ 0) (hin : n ∉ st.inflight)
    (hseen : n ∉ st.seenJobs) :
    (handle_print_job H printer now true false st d).2.countP
        Effect.isPrintSink = 1
    ∧ (handle_print_job H printer now true false st d).1.db = st.db
    ∧ (handle_print_job H printer now true false st d).2.countP
        Effect.isAckTrigger = 0
    ∧ Effect.log storeFailMsg ∈
        (handle_print_job H printer now true false st d).2
    ∧ n ∉ (handle_print_job H printer now true false st d).1.inflight := by
  simp [handle_print_job, hid, hn, hin, hseen, print_zpl, job_cb,
    List.countP_cons, Effect.isPrintSink, Effect.isAckTrigger, removeId,
    List.mem_filter]

/-- Witness for C8 at a concrete input: fresh job 3 whose insert fails. -/
theorem store_failure_no_crash_witness :
    ((⟨some 3, some "I", some 1, some "Z"⟩ : JobData).job_id = some 3)
    ∧ ((3 : Int) ≠ 0)
    ∧ ((3 : Int) ∉ ([] : List Int))
    ∧ ((3 : Int) ∉ ([] : List Int))
    ∧ ((handle_print_job id "P" 0 true false
          ⟨"k", "u", true, false, [], [], [], []⟩
          ⟨some 3, some "I", some 1, some "Z"⟩).2.countP
            Effect.isPrintSink = 1
      ∧ (handle_print_job id "P" 0 true false
          ⟨"k", "u", true, false, [], [], [], []⟩
          ⟨some 3, some "I", some 1, some "Z"⟩).1.db = []
      ∧ (handle_print_job id "P" 0 true false
          ⟨"k", "u", true, false, [], [], [], []⟩
          ⟨some 3, some "I", some 1, some "Z"⟩).2.countP
            Effect.isAckTrigger = 0
      ∧ Effect.log storeFailMsg ∈
          (handle_print_job id "P" 0 true false
            ⟨"k", "u", true, false, [], [], [], []⟩
            ⟨some 3, some "I", some 1, some "Z"⟩).2
      ∧ (3 : Int) ∉ (handle_print_job id "P" 0 true false
          ⟨"k", "u", true, false, [], [], [], []⟩
          ⟨some 3, some "I", some 1, some "Z"⟩).1.inflight) :=
  ⟨rfl, by decide, by decide, by decide,
    store_failure_no_crash id "P" 0
      ⟨"k", "u", true, false, [], [], [], []⟩
      ⟨some 3, some "I", some 1, some "Z"⟩ 3 rfl (by decide) (by decide)
      (by decide)⟩

/-- C9: `_make_fingerprint` is not injective over distinct
`(invoice, copies, payload)` triples: the three fields are concatenated
without separators before hashing, so invoice "A" with 12 copies and
invoice "A1" with 2 copies (same payload) feed the identical byte string
to SHA-256 and get the same digest, whatever the digest function is; as a
consequence the second, distinct identifier-less job submitted one second
after the first is suppressed without a Print Sink invocation. -/
theorem fingerprint_collision (H : String → String) :
    make_fingerprint H (some "A") (some 12) (some "^XA^XZ")
        = make_fingerprint H (some "A1") (some 2) (some "^XA^XZ")
    ∧ ((some "A", some 12) : Option String × Option Int)
        ≠ (some "A1", some 2)
    ∧ (handle_print_job H "P" (100 + 1) true true
        (handle_print_job H "P" 100 true true
          ⟨"k", "u", false, false, [], [], [], []⟩
          ⟨none, some "A", some 12, some "^XA^XZ"⟩).1
        ⟨none, some "A1", some 2, some "^XA^XZ"⟩).2.countP
          Effect.isPrintSink = 0 := by
  have hin : fingerprint_input (some "A") (some 12) (some "^XA^XZ")
      = fingerprint_input (some "A1") (some 2) (some "^XA^XZ") := by decide
  have hfpeq : make_fingerprint H (some "A1") (some 2) (some "^XA^XZ")
      = make_fingerprint H (some "A") (some 12) (some "^XA^XZ") :=
    (congrArg H hin).symm
  refine ⟨congrArg H hin, by decide, ?_⟩
  have hr1 : handle_print_job H "P" 100 true true
      ⟨"k", "u", false, false, [], [], [], []⟩
      ⟨none, some "A", some 12, some "^XA^XZ"⟩
      = ({ api_key := "k", server_url := "u", connected := false,
            connecting := false, inflight := [], seenJobs := [],
            recentFingerprints :=
              [(make_fingerprint H (some "A") (some 12) (some "^XA^XZ"),
                100)],
            db := [⟨none, some "A", some 12, some "^XA^XZ", false⟩] },
         [Effect.printSink "P" (some "^XA^XZ"),
          Effect.log ("Printed via " ++ "P"),
          Effect.addPrintList (some "A")]) := by
    simp [handle_print_job, fingerprint_path, purgeFingerprints,
      setFingerprint, lookupFingerprint, print_zpl, job_cb, store_print]
  rw [hr1]
  simp [handle_print_job, fingerprint_path, purgeFingerprints,
    lookupFingerprint, hfpeq, fingerprint_ttl, List.filter_cons,
    List.countP_cons, Effect.isPrintSink]

end ZPLWeb
